import Mathlib

/-!
Verification of the intercall-backend transcription core.

Shallow embedding of:
- `src/domain/entities/TranscriptionSession.ts` (session entity and state machine)
- `src/domain/value-objects/AudioConfig.ts` (validated audio configuration)
- `src/use-cases/transcription/StartTranscription.ts`, `ProcessAudioChunk.ts`,
  `StopTranscription.ts` (orchestration operations)
- the auto-initialising `TranscriptionController.handleAudioChunk`
- `SonioxProvider.sendAudio` (provider send path)
- `DrizzleTranscriptionRepository.mapToEntity` (load-from-store path)

Timestamps (`Date`) are modelled as integers (milliseconds); the store's
decimal-string columns for numeric audio fields are modelled as the integers
they encode (parseInt of the stored string is the identity on that round trip).
Fallible TypeScript methods (ones that `throw`) are modelled as `Except String`;
a thrown error leaves the receiver unchanged, which the embedding reflects by
returning no new state on `.error`.
-/

/-- The `SessionStatus` enum. -/
inductive SessionStatus
  | pending
  | active
  | stopping
  | stopped
  | error
deriving DecidableEq, Repr

/-- String value of each enum member, as in the TypeScript enum. -/
def SessionStatus.toStr : SessionStatus → String
  | .pending => "pending"
  | .active => "active"
  | .stopping => "stopping"
  | .stopped => "stopped"
  | .error => "error"

/-- One recognised token (`ITranscriptionToken`). Confidence is a number in
[0,1]; no operation computes with it, so it is embedded as a rational. -/
structure TranscriptionToken where
  text : String
  confidence : Rat
  start_ms : Int
  end_ms : Int
deriving DecidableEq, Repr

/-- The raw field bundle `IAudioConfig` (format kept as its wire string). -/
structure IAudioConfig where
  sampleRate : Int
  channels : Int
  bitDepth : Int
  format : String
deriving DecidableEq, Repr

/-- The `AudioConfig` constructor: validates and either throws or accepts the
exact field values (no coercion). -/
def AudioConfig.validate (config : IAudioConfig) : Except String IAudioConfig :=
  if config.sampleRate ≠ 48000 then
    .error "Only 48kHz sample rate is supported"
  else if config.channels ≠ 1 then
    .error "Only mono (1 channel) is supported"
  else if config.bitDepth ≠ 16 then
    .error "Only 16-bit PCM is supported"
  else if config.format ≠ "pcm16" then
    .error "Only PCM16 format is supported"
  else
    .ok config

/-- Model of `AudioConfig.default()`: the single accepted combination. -/
def AudioConfig.defaultConfig : IAudioConfig :=
  { sampleRate := 48000, channels := 1, bitDepth := 16, format := "pcm16" }

/-- The `TranscriptionSession` entity. -/
structure TranscriptionSession where
  id : String
  socketId : String
  status : SessionStatus
  audioConfig : IAudioConfig
  startedAt : Int
  endedAt : Option Int
  results : List TranscriptionToken
  errorMessage : Option String
deriving DecidableEq, Repr

/-- Model of `TranscriptionSession.create(socketId)`: fresh id, default config,
status PENDING, no results, no end timestamp. -/
def TranscriptionSession.create (sessionId socketId : String) (now : Int) :
    TranscriptionSession :=
  { id := sessionId
    socketId := socketId
    status := .pending
    audioConfig := AudioConfig.defaultConfig
    startedAt := now
    endedAt := none
    results := []
    errorMessage := none }

/-- Model of `activate()`: PENDING → ACTIVE, otherwise throws. -/
def TranscriptionSession.activate (s : TranscriptionSession) :
    Except String TranscriptionSession :=
  if s.status ≠ .pending then
    .error ("Cannot activate session in " ++ s.status.toStr ++
      " status. Must be PENDING.")
  else
    .ok { s with status := .active }

/-- Model of `addResult(token)`: appends while ACTIVE, otherwise throws. -/
def TranscriptionSession.addResult (s : TranscriptionSession)
    (token : TranscriptionToken) : Except String TranscriptionSession :=
  if s.status ≠ .active then
    .error ("Cannot add results to session in " ++ s.status.toStr ++
      " status. Session must be ACTIVE.")
  else
    .ok { s with results := s.results ++ [token] }

/-- Model of `markForStopping()`: ACTIVE → STOPPING, silently ignored otherwise. -/
def TranscriptionSession.markForStopping (s : TranscriptionSession) :
    TranscriptionSession :=
  if s.status = .active then { s with status := .stopping } else s

/-- Model of `markStopped()`: unconditionally sets STOPPED and `endedAt`. -/
def TranscriptionSession.markStopped (s : TranscriptionSession) (now : Int) :
    TranscriptionSession :=
  { s with status := .stopped, endedAt := some now }

/-- Model of `markError(message)`: unconditionally sets ERROR, `errorMessage`
and `endedAt`. -/
def TranscriptionSession.markError (s : TranscriptionSession) (message : String)
    (now : Int) : TranscriptionSession :=
  { s with status := .error, errorMessage := some message, endedAt := some now }

/-- Model of `getTranscribedText()`: space-joined token texts in insertion order. -/
def TranscriptionSession.getTranscribedText (s : TranscriptionSession) : String :=
  String.intercalate " " (s.results.map (fun token => token.text))

/-- One session operation, with the ambient clock value for the operations
that read `new Date()`. -/
inductive SessionOp
  | activate
  | addResult (token : TranscriptionToken)
  | markForStopping
  | markStopped (now : Int)
  | markError (message : String) (now : Int)
deriving DecidableEq, Repr

/-- Apply one operation; a thrown error leaves the session unchanged. -/
def applyOp (s : TranscriptionSession) : SessionOp → TranscriptionSession
  | .activate =>
      match s.activate with
      | .ok s' => s'
      | .error _ => s
  | .addResult token =>
      match s.addResult token with
      | .ok s' => s'
      | .error _ => s
  | .markForStopping => s.markForStopping
  | .markStopped now => s.markStopped now
  | .markError message now => s.markError message now

/-- Apply a sequence of operations from left to right. -/
def applyOps (s : TranscriptionSession) (ops : List SessionOp) :
    TranscriptionSession :=
  ops.foldl applyOp s

/-- The C1 invariant: `endedAt` is set iff status is STOPPED or ERROR. -/
def endedIffTerminal (s : TranscriptionSession) : Prop :=
  s.endedAt.isSome ↔ (s.status = .stopped ∨ s.status = .error)

lemma endedIffTerminal_create (sessionId socketId : String) (now : Int) :
    endedIffTerminal (TranscriptionSession.create sessionId socketId now) := by
  simp [endedIffTerminal, TranscriptionSession.create]

lemma endedIffTerminal_applyOp (s : TranscriptionSession) (op : SessionOp)
    (h : endedIffTerminal s) : endedIffTerminal (applyOp s op) := by
  cases op <;>
    simp only [applyOp, TranscriptionSession.activate,
      TranscriptionSession.addResult, TranscriptionSession.markForStopping,
      TranscriptionSession.markStopped, TranscriptionSession.markError] <;>
    [skip; skip; skip;
     simp [endedIffTerminal]; simp [endedIffTerminal]]
  · by_cases hp : s.status = .pending
    · simp only [hp]
      simp only [endedIffTerminal] at h ⊢
      simp [hp] at h
      simpa [hp] using h
    · simpa [hp] using h
  · by_cases ha : s.status = .active
    · simp only [ha]
      simp only [endedIffTerminal] at h ⊢
      simpa [ha] using h
    · simpa [ha] using h
  · by_cases ha : s.status = .active
    · simp only [endedIffTerminal] at h ⊢
      simp only [ha] at h ⊢
      simpa using h
    · simpa [ha] using h

lemma endedIffTerminal_applyOps (s : TranscriptionSession) (ops : List SessionOp)
    (h : endedIffTerminal s) : endedIffTerminal (applyOps s ops) := by
  induction ops generalizing s with
  | nil => exact h
  | cons op ops ih =>
      exact ih _ (endedIffTerminal_applyOp s op h)

/-- C1: for every session and every sequence of session operations applied
from creation, `endedAt` is set if and only if the status is STOPPED or
ERROR. -/
theorem endedAt_iff_terminal (sessionId socketId : String) (now : Int)
    (ops : List SessionOp) :
    endedIffTerminal (applyOps (TranscriptionSession.create sessionId socketId now) ops) :=
  endedIffTerminal_applyOps _ ops (endedIffTerminal_create sessionId socketId now)

/-- Returns `true` iff the fallible operation succeeded. -/
def exceptIsOk {α : Type} : Except String α → Bool
  | .ok _ => true
  | .error _ => false

/-- A concrete stopped session: created, activated, then stopped. -/
def sessionC5 : TranscriptionSession :=
  applyOps (TranscriptionSession.create "sess-1" "conn-1" 0)
    [.activate, .markStopped 5]

/-- C5 counterexample: `markError` applied to a STOPPED session changes its
status to ERROR, so STOPPED is not terminal with respect to `markError`. -/
theorem markError_escapes_stopped :
    sessionC5.status = .stopped ∧
    (applyOp sessionC5 (SessionOp.markError "boom" 6)).status = .error ∧
    (applyOp sessionC5 (SessionOp.markError "boom" 6)).status ≠ sessionC5.status := by
  decide

lemma status_ne_pending_applyOp (s : TranscriptionSession) (op : SessionOp)
    (h : s.status ≠ .pending) : (applyOp s op).status ≠ .pending := by
  cases op <;>
    simp only [applyOp, TranscriptionSession.activate,
      TranscriptionSession.addResult, TranscriptionSession.markForStopping,
      TranscriptionSession.markStopped, TranscriptionSession.markError]
  · simp [h]
  · by_cases ha : s.status = .active
    · simp [ha]
    · simpa [ha] using h
  · by_cases ha : s.status = .active
    · simp [ha]
    · simpa [ha] using h
  · simp
  · simp

lemma status_ne_pending_applyOps (s : TranscriptionSession) (ops : List SessionOp)
    (h : s.status ≠ .pending) : (applyOps s ops).status ≠ .pending := by
  induction ops generalizing s with
  | nil => exact h
  | cons op ops ih => exact ih _ (status_ne_pending_applyOp s op h)

/-- C5 (amended): STOPPED and ERROR are terminal with respect to `activate`,
`addResult` and `markForStopping` (each leaves a terminal session unchanged),
and the terminal set {STOPPED, ERROR} is closed under every operation; but
`markStopped` and `markError` are unguarded, so they move a terminal session
to STOPPED resp. ERROR even from the other terminal state. -/
theorem terminal_status_closure (s : TranscriptionSession)
    (t : TranscriptionToken)
    (h : s.status = .stopped ∨ s.status = .error) :
    applyOp s .activate = s ∧
    applyOp s (.addResult t) = s ∧
    applyOp s .markForStopping = s ∧
    (∀ now, (s.markStopped now).status = .stopped) ∧
    (∀ msg now, (s.markError msg now).status = .error) ∧
    (∀ op, (applyOp s op).status = .stopped ∨ (applyOp s op).status = .error) := by
  have hs : s.status ≠ .pending ∧ s.status ≠ .active := by
    rcases h with h | h <;> simp [h]
  refine ⟨?_, ?_, ?_, ?_, ?_, ?_⟩
  · simp [applyOp, TranscriptionSession.activate, hs.1]
  · simp [applyOp, TranscriptionSession.addResult, hs.2]
  · simp [applyOp, TranscriptionSession.markForStopping, hs.2]
  · intro now; simp [TranscriptionSession.markStopped]
  · intro msg now; simp [TranscriptionSession.markError]
  · intro op
    cases op <;>
      simp [applyOp, TranscriptionSession.activate,
        TranscriptionSession.addResult, TranscriptionSession.markForStopping,
        TranscriptionSession.markStopped, TranscriptionSession.markError,
        hs.1, hs.2, h]

/-- Witness for the amended C5 theorem at a concrete stopped session. -/
theorem terminal_status_closure_witness :
    applyOp sessionC5 .activate = sessionC5 :=
  (terminal_status_closure sessionC5
    { text := "hello", confidence := 1, start_ms := 0, end_ms := 10 }
    (Or.inl (by decide))).1

/-- C7: `activate` succeeds exactly from PENDING and any later call (after any
sequence of further operations) fails; `addResult` succeeds exactly from
ACTIVE, appending the token; every rejection leaves the session unchanged. -/
theorem activate_once_addResult_active (s : TranscriptionSession)
    (t : TranscriptionToken) (ops : List SessionOp) :
    (exceptIsOk s.activate = true ↔ s.status = .pending) ∧
    (s.status = .pending → s.activate = .ok { s with status := .active }) ∧
    (∀ s', s.activate = .ok s' →
      exceptIsOk (applyOps s' ops).activate = false) ∧
    (exceptIsOk (s.addResult t) = true ↔ s.status = .active) ∧
    (s.status = .active →
      s.addResult t = .ok { s with results := s.results ++ [t] }) ∧
    (s.status ≠ .pending → applyOp s .activate = s) ∧
    (s.status ≠ .active → applyOp s (.addResult t) = s) := by
  refine ⟨?_, ?_, ?_, ?_, ?_, ?_, ?_⟩
  · by_cases hp : s.status = .pending <;>
      simp [TranscriptionSession.activate, exceptIsOk, hp]
  · intro hp; simp [TranscriptionSession.activate, hp]
  · intro s' hok
    have hp : s.status = .pending := by
      by_contra hne
      simp [TranscriptionSession.activate, hne] at hok
    have hs' : s' = { s with status := .active } := by
      simp [TranscriptionSession.activate, hp] at hok
      exact hok.symm
    have hne : (applyOps s' ops).status ≠ .pending := by
      apply status_ne_pending_applyOps
      simp [hs']
    simp [TranscriptionSession.activate, hne, exceptIsOk]
  · by_cases ha : s.status = .active <;>
      simp [TranscriptionSession.addResult, exceptIsOk, ha]
  · intro ha; simp [TranscriptionSession.addResult, ha]
  · intro hp; simp [applyOp, TranscriptionSession.activate, hp]
  · intro ha; simp [applyOp, TranscriptionSession.addResult, ha]

/-- Witness for C7 at a concrete PENDING session and token. -/
theorem activate_once_addResult_active_witness :
    exceptIsOk (TranscriptionSession.create "s" "c" 0).activate = true :=
  (activate_once_addResult_active (TranscriptionSession.create "s" "c" 0)
    { text := "hi", confidence := 1, start_ms := 0, end_ms := 5 } []).1.mpr
    (by decide)

/-- C10: `markStopped` changes only `status` and `endedAt`; `markError`
changes only `status`, `endedAt` and `errorMessage`; in particular the
results, timestamps, identity, config — and hence the transcribed text —
are unchanged. -/
theorem mark_terminal_frame (s : TranscriptionSession) (now : Int)
    (msg : String) :
    (s.markStopped now).results = s.results ∧
    (s.markStopped now).startedAt = s.startedAt ∧
    (s.markStopped now).id = s.id ∧
    (s.markStopped now).socketId = s.socketId ∧
    (s.markStopped now).audioConfig = s.audioConfig ∧
    (s.markStopped now).errorMessage = s.errorMessage ∧
    (s.markStopped now).getTranscribedText = s.getTranscribedText ∧
    (s.markStopped now).status = .stopped ∧
    (s.markStopped now).endedAt = some now ∧
    (s.markError msg now).results = s.results ∧
    (s.markError msg now).startedAt = s.startedAt ∧
    (s.markError msg now).id = s.id ∧
    (s.markError msg now).socketId = s.socketId ∧
    (s.markError msg now).audioConfig = s.audioConfig ∧
    (s.markError msg now).getTranscribedText = s.getTranscribedText ∧
    (s.markError msg now).status = .error ∧
    (s.markError msg now).endedAt = some now ∧
    (s.markError msg now).errorMessage = some msg := by
  simp [TranscriptionSession.markStopped, TranscriptionSession.markError,
    TranscriptionSession.getTranscribedText]

/-- Outcome of `provider.connect(onResult, onError)` as observed by the Start
use case: the promise resolves with no error callback before `activate`; it
resolves but the error callback fired first (marking the session ERROR); or it
rejects, possibly after firing the error callback (the websocket error path
does both). -/
inductive ConnectOutcome
  | ok
  | okWithError (msg : String)
  | failed (msg : String) (cbFired : Bool)
deriving DecidableEq, Repr

/-- Outcome of `store.save(session)`. -/
inductive SaveOutcome
  | ok
  | failed (msg : String)
deriving DecidableEq, Repr

/-- Result of running `StartTranscription.execute`: the value returned or the
wrapped error thrown, the sessions persisted to the store, and the final state
of the locally created session object. -/
structure StartResult where
  result : Except String TranscriptionSession
  saved : List TranscriptionSession
  session : TranscriptionSession
deriving Repr

/-- The catch-all wrapper in `StartTranscription.execute`. -/
def wrapStartError (msg : String) : String :=
  "Failed to start transcription: " ++ msg

/-- The tail of `StartTranscription.execute` after `connect` resolved:
`session.activate()` then `store.save(session)`, with the catch-all wrapper. -/
def startFinish (session : TranscriptionSession) (save : SaveOutcome) :
    StartResult :=
  match session.activate with
  | .ok s' =>
      match save with
      | .ok => { result := .ok s', saved := [s'], session := s' }
      | .failed m =>
          { result := .error (wrapStartError m), saved := [], session := s' }
  | .error m =>
      { result := .error (wrapStartError m), saved := [], session := session }

/-- Model of `StartTranscription.execute(socketId)`: create a PENDING session, connect
the provider (whose error callback runs `session.markError`), activate, then
save; any thrown error is wrapped and nothing is persisted. -/
def StartTranscription.execute (socketId sessionId : String) (now : Int)
    (connect : ConnectOutcome) (save : SaveOutcome) : StartResult :=
  let session := TranscriptionSession.create sessionId socketId now
  match connect with
  | .failed msg cbFired =>
      { result := .error (wrapStartError msg)
        saved := []
        session := if cbFired then session.markError msg now else session }
  | .okWithError msg => startFinish (session.markError msg now) save
  | .ok => startFinish session save

/-- The catch-all wrapper in `ProcessAudioChunk.execute`. -/
def wrapChunkError (msg : String) : String :=
  "Failed to process audio chunk: " ++ msg

/-- Model of `ProcessAudioChunk.execute(socketId, audioData)`:
empty-chunk check, then session lookup, then ACTIVE check, then forward the
bytes to `provider.sendAudio`; `.ok bytes` means exactly those bytes were
forwarded. -/
def ProcessAudioChunk.execute (lookup : Option TranscriptionSession)
    (audioData : List Nat) : Except String (List Nat) :=
  if audioData.isEmpty then
    .error (wrapChunkError "Audio chunk is empty or invalid")
  else
    match lookup with
    | none =>
        .error (wrapChunkError
          "Transcription session not found. Call start_transcription first.")
    | some session =>
        if session.status ≠ .active then
          .error (wrapChunkError ("Cannot process audio in " ++
            session.status.toStr ++ " session state"))
        else
          .ok audioData

/-- Observable side effect of the Stop use case, in order of occurrence. -/
inductive StopEffect
  | providerClose
  | storeUpdate (s : TranscriptionSession)
deriving DecidableEq, Repr

/-- Result of `StopTranscription.execute`: returned session or wrapped error,
plus the effects (provider close, successful store update) that occurred. -/
structure StopResult where
  result : Except String TranscriptionSession
  effects : List StopEffect
deriving Repr

/-- The catch-all wrapper in `StopTranscription.execute`. -/
def wrapStopError (msg : String) : String :=
  "Failed to stop transcription: " ++ msg

/-- Model of `StopTranscription.execute(socketId)`: lookup (SessionNotFound if absent),
`markForStopping`, await `provider.close()` (which always resolves),
`markStopped`, `store.update` (may throw, modelled by `updateFails`), return
the session. -/
def StopTranscription.execute (lookup : Option TranscriptionSession)
    (now : Int) (updateFails : Option String) : StopResult :=
  match lookup with
  | none =>
      { result := .error (wrapStopError
          "Transcription session not found. No active transcription to stop.")
        effects := [] }
  | some session =>
      let s2 := (session.markForStopping).markStopped now
      match updateFails with
      | none => { result := .ok s2, effects := [.providerClose, .storeUpdate s2] }
      | some m =>
          { result := .error (wrapStopError m), effects := [.providerClose] }

/-- C2: Start persists a session only on full success: the result is `.ok`
iff both connect and save succeed; on any failure the error is the wrapped
`TranscriptionStartError` and nothing is saved; on success exactly the
activated session is saved; and when the provider error callback fires before
activation (whether connect then resolves or rejects) the session goes
directly to ERROR and nothing is saved. -/
theorem start_atomic (socketId sessionId : String) (now : Int)
    (c : ConnectOutcome) (sv : SaveOutcome) :
    (exceptIsOk (StartTranscription.execute socketId sessionId now c sv).result = true
      ↔ (c = .ok ∧ sv = .ok)) ∧
    (exceptIsOk (StartTranscription.execute socketId sessionId now c sv).result = false →
      (StartTranscription.execute socketId sessionId now c sv).saved = [] ∧
      ∃ msg, (StartTranscription.execute socketId sessionId now c sv).result =
        .error (wrapStartError msg)) ∧
    (c = .ok → sv = .ok →
      (StartTranscription.execute socketId sessionId now c sv).result =
        .ok { TranscriptionSession.create sessionId socketId now with status := .active } ∧
      (StartTranscription.execute socketId sessionId now c sv).saved =
        [{ TranscriptionSession.create sessionId socketId now with status := .active }]) ∧
    (∀ msg, c = .okWithError msg →
      (StartTranscription.execute socketId sessionId now c sv).session.status = .error ∧
      (StartTranscription.execute socketId sessionId now c sv).saved = [] ∧
      exceptIsOk (StartTranscription.execute socketId sessionId now c sv).result = false) ∧
    (∀ msg, c = .failed msg true →
      (StartTranscription.execute socketId sessionId now c sv).session.status = .error ∧
      (StartTranscription.execute socketId sessionId now c sv).saved = []) := by
  rcases c with _ | msg | ⟨msg, cb⟩ <;> rcases sv with _ | m <;>
    simp [StartTranscription.execute, startFinish, TranscriptionSession.create,
      TranscriptionSession.activate, TranscriptionSession.markError,
      exceptIsOk] <;>
    (try (intro hcb; simp [hcb]))

/-- Witness for C2 at concrete inputs: the all-success case returns `.ok`. -/
theorem start_atomic_witness :
    exceptIsOk (StartTranscription.execute "conn-1" "sess-1" 0
      ConnectOutcome.ok SaveOutcome.ok).result = true :=
  (start_atomic "conn-1" "sess-1" 0 ConnectOutcome.ok SaveOutcome.ok).1.mpr
    ⟨rfl, rfl⟩

/-- C3: ProcessChunk rejects an empty chunk first (whatever the lookup), then
a missing session, then a non-ACTIVE session, and otherwise forwards exactly
the given bytes. -/
theorem processChunk_cases (lookup : Option TranscriptionSession)
    (audioData : List Nat) :
    (audioData = [] → ProcessAudioChunk.execute lookup audioData =
      .error (wrapChunkError "Audio chunk is empty or invalid")) ∧
    (audioData ≠ [] → lookup = none → ProcessAudioChunk.execute lookup audioData =
      .error (wrapChunkError
        "Transcription session not found. Call start_transcription first.")) ∧
    (∀ s, audioData ≠ [] → lookup = some s → s.status ≠ .active →
      ProcessAudioChunk.execute lookup audioData =
        .error (wrapChunkError ("Cannot process audio in " ++
          s.status.toStr ++ " session state"))) ∧
    (∀ s, audioData ≠ [] → lookup = some s → s.status = .active →
      ProcessAudioChunk.execute lookup audioData = .ok audioData) := by
  refine ⟨?_, ?_, ?_, ?_⟩
  · intro he; simp [ProcessAudioChunk.execute, he]
  · intro hne hl; simp [ProcessAudioChunk.execute, hl, List.isEmpty_iff, hne]
  · intro s hne hl hs
    simp [ProcessAudioChunk.execute, hl, List.isEmpty_iff, hne, hs]
  · intro s hne hl hs
    simp [ProcessAudioChunk.execute, hl, List.isEmpty_iff, hne, hs]

/-- Witness for C3 at concrete inputs: the empty chunk is rejected even with
an ACTIVE session present. -/
theorem processChunk_cases_witness :
    ProcessAudioChunk.execute
      (some { TranscriptionSession.create "sess-1" "conn-1" 0 with status := .active })
      [] =
      .error (wrapChunkError "Audio chunk is empty or invalid") :=
  (processChunk_cases
    (some { TranscriptionSession.create "sess-1" "conn-1" 0 with status := .active })
    []).1 rfl

/-- C4: Stop fails with SessionNotFound (and performs no effect) when the
lookup is empty; otherwise it closes the provider, then updates the store
with the stopped session, and returns that session; an ACTIVE session passes
through STOPPING to STOPPED and the returned transcript is the space-joined
accumulated results. -/
theorem stop_sequence (lookup : Option TranscriptionSession) (now : Int) :
    (lookup = none → StopTranscription.execute lookup now none =
      { result := .error (wrapStopError
          "Transcription session not found. No active transcription to stop.")
        effects := [] }) ∧
    (∀ s, lookup = some s → StopTranscription.execute lookup now none =
      { result := .ok ((s.markForStopping).markStopped now)
        effects := [.providerClose,
          .storeUpdate ((s.markForStopping).markStopped now)] }) ∧
    (∀ s, lookup = some s → s.status = .active →
      (s.markForStopping).status = .stopping ∧
      ((s.markForStopping).markStopped now).status = .stopped ∧
      ((s.markForStopping).markStopped now).getTranscribedText =
        String.intercalate " " (s.results.map (fun token => token.text))) := by
  refine ⟨?_, ?_, ?_⟩
  · intro hl; simp [StopTranscription.execute, hl]
  · intro s hl; simp [StopTranscription.execute, hl]
  · intro s hl hs
    refine ⟨?_, ?_, ?_⟩
    · simp [TranscriptionSession.markForStopping, hs]
    · simp [TranscriptionSession.markStopped]
    · simp [TranscriptionSession.markStopped,
        TranscriptionSession.markForStopping,
        TranscriptionSession.getTranscribedText, hs]

/-- A concrete recognised token. -/
def tokenHello : TranscriptionToken :=
  { text := "hello", confidence := 9/10, start_ms := 0, end_ms := 400 }

/-- A concrete ACTIVE session holding one result token. -/
def sessionC4 : TranscriptionSession :=
  applyOps (TranscriptionSession.create "sess-1" "conn-1" 0)
    [.activate, .addResult tokenHello]

/-- Witness for C4 at a concrete ACTIVE session with one result token. -/
theorem stop_sequence_witness :
    (sessionC4.markForStopping).status = SessionStatus.stopping :=
  ((stop_sequence (some sessionC4) 7).2.2 _ rfl (by decide)).1

/-- Model of `DrizzleTranscriptionRepository.findBySocketId`: first stored row whose
`socketId` column matches (`limit 1` over insertion order). -/
def findBySocketId (store : List TranscriptionSession) (socketId : String) :
    Option TranscriptionSession :=
  store.find? (fun s => s.socketId == socketId)

/-- Store contents and client acknowledgment after one `audio_chunk` event. -/
structure ChunkAck where
  store : List TranscriptionSession
  ack : Except String Unit
deriving Repr

/-- The auto-init `TranscriptionController.handleAudioChunk` body for one
`audio_chunk` event: it always runs `StartTranscription.execute` (there is no
check for an existing provider/session pair), appends whatever Start saved to
the store, and on Start success runs `ProcessAudioChunk.execute` against the
updated store. -/
def handleAudioChunkAuto (store : List TranscriptionSession)
    (clientId sessionId : String) (now : Int) (connect : ConnectOutcome)
    (save : SaveOutcome) (data : List Nat) : ChunkAck :=
  let r := StartTranscription.execute clientId sessionId now connect save
  match r.result with
  | .error e => { store := store ++ r.saved, ack := .error e }
  | .ok _ =>
      let store' := store ++ r.saved
      match ProcessAudioChunk.execute (findBySocketId store' clientId) data with
      | .ok _ => { store := store', ack := .ok () }
      | .error e => { store := store', ack := .error e }

/-- Store state after a first audio chunk on connection conn-1. -/
def c6AfterFirstChunk : ChunkAck :=
  handleAudioChunkAuto [] "conn-1" "sess-1" 0 .ok .ok [1, 2]

/-- Store state after a second audio chunk on the same connection. -/
def c6AfterSecondChunk : ChunkAck :=
  handleAudioChunkAuto c6AfterFirstChunk.store "conn-1" "sess-2" 1 .ok .ok [3, 4]

/-- C6 is violated by the code: the auto-init controller invokes Start on
every chunk, so the second chunk on conn-1 creates and persists a second
ACTIVE (non-terminal) session for the same connection id. -/
theorem second_chunk_persists_second_session :
    c6AfterSecondChunk.store.map (fun s => s.socketId) = ["conn-1", "conn-1"] ∧
    c6AfterSecondChunk.store.map (fun s => s.status) = [.active, .active] ∧
    c6AfterSecondChunk.store.map (fun s => s.id) = ["sess-1", "sess-2"] := by
  decide

/-- The `SonioxProvider` connection state relevant to `sendAudio`: whether
`this.ws` is non-null, the `isConnectedStatus` flag, and whether an error
callback was registered by `connect`. -/
structure SonioxProviderState where
  wsPresent : Bool
  isConnectedStatus : Bool
  hasErrorCallback : Bool
deriving DecidableEq, Repr

/-- One invocation of the registered error callback. -/
structure ProviderErrorEvent where
  error : String
  details : Option String
deriving DecidableEq, Repr

/-- Outcome of the underlying `ws.send(audioData)` call when attempted. -/
inductive WsSendOutcome
  | sent
  | threw (msg : String)
deriving DecidableEq, Repr

/-- What one `sendAudio` call did: resulting provider state, error-callback
invocations, and the bytes written to the websocket (if any). `sendAudio`
is total — it never raises to its caller. -/
structure SendAudioResult where
  state : SonioxProviderState
  events : List ProviderErrorEvent
  forwarded : Option (List Nat)
deriving DecidableEq, Repr

/-- Model of `SonioxProvider.sendAudio(audioData)`: when the socket is absent or the
connected flag is down, report through the error callback and return; when
open, send, catching any send failure and reporting it through the error
callback. -/
def SonioxProvider.sendAudio (p : SonioxProviderState) (audioData : List Nat)
    (send : WsSendOutcome) : SendAudioResult :=
  if !p.wsPresent || !p.isConnectedStatus then
    { state := p
      events :=
        if p.hasErrorCallback then
          [{ error := "Soniox connection not established"
             details := some
               "WebSocket is not connected. Call connect() first before sending audio." }]
        else []
      forwarded := none }
  else
    match send with
    | .sent => { state := p, events := [], forwarded := some audioData }
    | .threw msg =>
        { state := p
          events :=
            if p.hasErrorCallback then
              [{ error := "Failed to send audio to Soniox", details := some msg }]
            else []
          forwarded := none }

/-- C8: whenever the channel is not open (socket never created or connected
flag down), `sendAudio` returns normally with the provider state unchanged,
nothing forwarded, and a not-connected error surfaced through the registered
error callback. -/
theorem sendAudio_not_open (p : SonioxProviderState) (audioData : List Nat)
    (send : WsSendOutcome)
    (h : p.wsPresent = false ∨ p.isConnectedStatus = false)
    (hcb : p.hasErrorCallback = true) :
    SonioxProvider.sendAudio p audioData send =
      { state := p
        events :=
          [{ error := "Soniox connection not established"
             details := some
               "WebSocket is not connected. Call connect() first before sending audio." }]
        forwarded := none } := by
  rcases h with h | h <;> simp [SonioxProvider.sendAudio, h, hcb]

/-- A provider state whose websocket was never created. -/
def neverConnected : SonioxProviderState :=
  { wsPresent := false, isConnectedStatus := false, hasErrorCallback := true }

/-- Witness for C8 at a concrete never-connected provider state. -/
theorem sendAudio_not_open_witness :
    SonioxProvider.sendAudio neverConnected [1, 2, 3] WsSendOutcome.sent =
      { state := neverConnected
        events :=
          [{ error := "Soniox connection not established"
             details := some
               "WebSocket is not connected. Call connect() first before sending audio." }]
        forwarded := none } :=
  sendAudio_not_open neverConnected [1, 2, 3] WsSendOutcome.sent
    (Or.inl rfl) rfl

/-- One row of the `transcription_session` table as read back by the
repository (numeric columns hold the integers their decimal strings encode). -/
structure SessionRecord where
  id : String
  socketId : String
  status : SessionStatus
  audioFormat : String
  sampleRate : Int
  channels : Int
  bitDepth : Int
  results : List TranscriptionToken
  errorMessage : Option String
  startedAt : Int
  endedAt : Option Int
deriving DecidableEq, Repr

/-- Model of `DrizzleTranscriptionRepository.mapToEntity(record)`: rebuilds the entity
directly from the row, casting the audio fields into place without going
through the `AudioConfig` constructor. -/
def mapToEntity (record : SessionRecord) : TranscriptionSession :=
  { id := record.id
    socketId := record.socketId
    status := record.status
    audioConfig :=
      { sampleRate := record.sampleRate
        channels := record.channels
        bitDepth := record.bitDepth
        format := record.audioFormat }
    startedAt := record.startedAt
    endedAt := record.endedAt
    results := record.results
    errorMessage := record.errorMessage }

/-- A stored row carrying an audio configuration the constructor would
reject. -/
def badRecord : SessionRecord :=
  { id := "sess-9"
    socketId := "conn-9"
    status := .active
    audioFormat := "pcm_s16le"
    sampleRate := 16000
    channels := 2
    bitDepth := 8
    results := []
    errorMessage := none
    startedAt := 0
    endedAt := none }

/-- C9 counterexample: loading a session from the store goes through
`mapToEntity`, which bypasses the `AudioConfig` constructor, so the loaded
session carries a configuration the constructor rejects — not every system
path yields the single accepted combination. -/
theorem mapToEntity_bypasses_validation :
    (mapToEntity badRecord).audioConfig ≠ AudioConfig.defaultConfig ∧
    exceptIsOk (AudioConfig.validate (mapToEntity badRecord).audioConfig) = false ∧
    (mapToEntity badRecord).audioConfig.sampleRate = 16000 := by
  decide

/-- C9 (amended): the `AudioConfig` constructor accepts exactly the single
combination (48000, 1, 16, pcm16), rejecting everything else; every session
produced by the creation path carries exactly that combination; but
`mapToEntity` copies the stored audio fields verbatim without validation. -/
theorem audioConfig_single_accepted (c : IAudioConfig)
    (sessionId socketId : String) (now : Int) (record : SessionRecord) :
    (AudioConfig.validate c = .ok c ↔ c = AudioConfig.defaultConfig) ∧
    (exceptIsOk (AudioConfig.validate c) = true ↔ c = AudioConfig.defaultConfig) ∧
    ((TranscriptionSession.create sessionId socketId now).audioConfig =
      AudioConfig.defaultConfig) ∧
    ((mapToEntity record).audioConfig =
      { sampleRate := record.sampleRate
        channels := record.channels
        bitDepth := record.bitDepth
        format := record.audioFormat }) := by
  obtain ⟨sr, ch, bd, fm⟩ := c
  refine ⟨?_, ?_, rfl, rfl⟩
  · by_cases h1 : sr = 48000 <;> by_cases h2 : ch = 1 <;>
      by_cases h3 : bd = 16 <;> by_cases h4 : fm = "pcm16" <;>
      simp [AudioConfig.validate, AudioConfig.defaultConfig,
        IAudioConfig.mk.injEq, h1, h2, h3, h4]
  · by_cases h1 : sr = 48000 <;> by_cases h2 : ch = 1 <;>
      by_cases h3 : bd = 16 <;> by_cases h4 : fm = "pcm16" <;>
      simp [AudioConfig.validate, AudioConfig.defaultConfig, exceptIsOk,
        IAudioConfig.mk.injEq, h1, h2, h3, h4]

/-- Witness for the amended C9 theorem at the default configuration. -/
theorem audioConfig_single_accepted_witness :
    exceptIsOk (AudioConfig.validate AudioConfig.defaultConfig) = true :=
  (audioConfig_single_accepted AudioConfig.defaultConfig "s" "c" 0
    badRecord).2.1.mpr rfl
